import Mathlib

/-!
# A verification development for the augrim two-phase-commit engine

This file shallowly embeds the 2PC coordinator and participant state machines of
the augrim library (module `two_phase_commit`, and the older duplicate module
layout `algorithm::two_phase_commit`) and proves properties of the embedded
functions.

Modelling conventions:

* `Process` and `Value` are opaque in the source (`P`, `V` type parameters with
  equality on `P`); we keep them as type parameters with `DecidableEq`.
* `Time` is opaque with addition of a duration (seconds) and ordering; we model
  instants as `Nat` (seconds).  `TimeSource::now()` is modelled by passing the
  single reading `now : Nat` into each `event` call.
* `Epoch` is a `u64` counter in the source; epochs only ever advance by `+ 1`
  from `0` so overflow is immaterial and they are modelled as `Nat`.
* Rust `Vec` becomes `List`; fallible `event` returns `Except`.
-/

/-- `Epoch` from `two_phase_commit/mod.rs` (`pub type Epoch = u64`). -/
abbrev Epoch := Nat

/-- `Participant` from `two_phase_commit/coordinator_context.rs`:
`{ process, vote: Option<bool>, decision_ack: bool }`. -/
structure Participant (P : Type) where
  process : P
  vote : Option Bool
  decision_ack : Bool
deriving DecidableEq, Repr

/-- `CoordinatorState` from `two_phase_commit/coordinator_context.rs`. -/
inductive CoordinatorState
  | Abort
  | Commit
  | Voting (vote_timeout_start : Nat)
  | WaitingForDecisionAck (ack_timeout_start : Nat)
  | WaitingForStart
  | WaitingForVote
deriving DecidableEq, Repr

/-- `CoordinatorContext` (role context) from
`two_phase_commit/coordinator_context.rs`: participants plus coordinator state. -/
structure CoordinatorContext (P : Type) where
  participants : List (Participant P)
  state : CoordinatorState
deriving DecidableEq, Repr

/-- `ParticipantState` from `two_phase_commit/participant_context.rs` (the file
itself is not in the tree; the five variants and their payloads are fixed by
`unified_state.rs` conversions and by `participant_algorithm.rs`). -/
inductive ParticipantState
  | Abort
  | Commit
  | Voted (vote : Bool) (decision_timeout_start : Nat)
  | WaitingForVote
  | WaitingForVoteRequest
deriving DecidableEq, Repr

/-- `ParticipantContext` (role context): the participant-process list plus the
participant state, as used by `participant_algorithm.rs` via
`participant_processes()` and `state()`. -/
structure ParticipantContext (P : Type) where
  participant_processes : List P
  state : ParticipantState
deriving DecidableEq, Repr

/-- `TwoPhaseCommitContext` from `two_phase_commit/unified_context.rs`, with the
fields shown by `unified_context_builder.rs`: `alarm`, `coordinator`, `epoch`,
`last_commit_epoch`, `role_context`, `this_process`. -/
structure TwoPhaseCommitContext (P : Type) (RC : Type) where
  alarm : Option Nat
  coordinator : P
  epoch : Epoch
  last_commit_epoch : Option Epoch
  role_context : RC
  this_process : P
deriving DecidableEq, Repr

/-- A coordinator-side unified context (`TwoPhaseCommitContext<P, T, CoordinatorContext<P, T>>`). -/
abbrev CoordCtx (P : Type) := TwoPhaseCommitContext P (CoordinatorContext P)

/-- A participant-side unified context (`TwoPhaseCommitContext<P, T, ParticipantContext<P, T>>`). -/
abbrev PartCtx (P : Type) := TwoPhaseCommitContext P (ParticipantContext P)

/-- `context.set_state(..)` for coordinator-side contexts. -/
def CoordCtx.set_state {P : Type} (ctx : CoordCtx P) (s : CoordinatorState) : CoordCtx P :=
  { ctx with role_context := { ctx.role_context with state := s } }

/-- replacing the participant vector of a coordinator-side context (the effect of
mutation through `participants_mut()`). -/
def CoordCtx.set_participants {P : Type} (ctx : CoordCtx P) (ps : List (Participant P)) :
    CoordCtx P :=
  { ctx with role_context := { ctx.role_context with participants := ps } }

/-- `context.set_state(..)` for participant-side contexts. -/
def PartCtx.set_state {P : Type} (ctx : PartCtx P) (s : ParticipantState) : PartCtx P :=
  { ctx with role_context := { ctx.role_context with state := s } }

/-- `TwoPhaseCommitMessage` from `two_phase_commit/unified_message.rs` (variants
fixed by the role-message conversions in `coordinator_message.rs` and
`participant_message.rs`). -/
inductive TwoPhaseCommitMessage (V : Type)
  | VoteRequest (epoch : Epoch) (value : V)
  | VoteResponse (epoch : Epoch) (vote : Bool)
  | Commit (epoch : Epoch)
  | Abort (epoch : Epoch)
  | DecisionRequest (epoch : Epoch)
  | DecisionAck (epoch : Epoch)
deriving DecidableEq, Repr

/-- `CoordinatorMessage` from `two_phase_commit/coordinator_message.rs`. -/
inductive CoordinatorMessage
  | VoteResponse (epoch : Epoch) (vote : Bool)
  | DecisionRequest (epoch : Epoch)
  | DecisionAck (epoch : Epoch)
deriving DecidableEq, Repr

/-- `ParticipantMessage` from `two_phase_commit/participant_message.rs`. -/
inductive ParticipantMessage (V : Type)
  | VoteRequest (epoch : Epoch) (value : V)
  | Commit (epoch : Epoch)
  | Abort (epoch : Epoch)
  | DecisionRequest (epoch : Epoch)
deriving DecidableEq, Repr

/-- `CoordinatorEvent`: `Alarm()`, `Deliver(P, CoordinatorMessage)`, `Start(V)`,
`Vote(bool)` — variants as matched in `coordinator_algorithm.rs`. -/
inductive CoordinatorEvent (P V : Type)
  | Alarm
  | Deliver (process : P) (message : CoordinatorMessage)
  | Start (value : V)
  | Vote (vote : Bool)
deriving DecidableEq, Repr

/-- `ParticipantEvent`: `Alarm()`, `Deliver(P, ParticipantMessage)`, `Vote(bool)`
— variants as matched in `participant_algorithm.rs`. -/
inductive ParticipantEvent (P V : Type)
  | Alarm
  | Deliver (process : P) (message : ParticipantMessage V)
  | Vote (vote : Bool)
deriving DecidableEq, Repr

/-- `CoordinatorActionNotification` from `two_phase_commit/coordinator_action.rs`. -/
inductive CoordinatorActionNotification
  | RequestForStart
  | RequestForVote
  | Commit
  | Abort
  | MessageDropped (reason : String)
deriving DecidableEq, Repr

/-- `CoordinatorAction` from `two_phase_commit/coordinator_action.rs`. -/
inductive CoordinatorAction (P V : Type)
  | Update (context : CoordCtx P) (alarm : Option Nat)
  | SendMessage (dest : P) (message : TwoPhaseCommitMessage V)
  | Notify (n : CoordinatorActionNotification)
deriving DecidableEq, Repr

/-- `ParticipantActionNotification` from `two_phase_commit/participant_action.rs`. -/
inductive ParticipantActionNotification (V : Type)
  | Abort
  | Commit
  | MessageDropped (reason : String)
  | RequestForVote (value : V)
deriving DecidableEq, Repr

/-- `ParticipantAction` from `two_phase_commit/participant_action.rs`. -/
inductive ParticipantAction (P V : Type)
  | Notify (n : ParticipantActionNotification V)
  | SendMessage (dest : P) (message : TwoPhaseCommitMessage V)
  | Update (context : PartCtx P) (alarm : Option Nat)
deriving DecidableEq, Repr

/-- `AlgorithmError` from `error/algorithm.rs`; the error payloads are the
message strings of `InvalidStateError` / `InternalError`. -/
inductive AlgorithmError
  | InvalidState (message : String)
  | Internal (message : String)
deriving DecidableEq, Repr

-- Decidable equality for `Except` results, used to evaluate the engines on
-- concrete inputs.
deriving instance DecidableEq for Except

/-- `ACK_TIMEOUT_SECONDS` from `two_phase_commit/coordinator_algorithm.rs`. -/
def ACK_TIMEOUT_SECONDS : Nat := 5

/-- `VOTE_TIMEOUT_SECONDS` from `two_phase_commit/coordinator_algorithm.rs`. -/
def VOTE_TIMEOUT_SECONDS : Nat := 30

/-- `DECISION_TIMEOUT_SECONDS` from `two_phase_commit/participant_algorithm.rs`. -/
def DECISION_TIMEOUT_SECONDS : Nat := 30

/-- `matches!(s, CoordinatorState::Voting { .. })`. -/
def CoordinatorState.isVoting : CoordinatorState → Bool
  | .Voting _ => true
  | _ => false

/-- `matches!(s, CoordinatorState::WaitingForDecisionAck { .. })`. -/
def CoordinatorState.isWaitingForDecisionAck : CoordinatorState → Bool
  | .WaitingForDecisionAck _ => true
  | _ => false

/-- `matches!(s, ParticipantState::Voted { .. })`. -/
def ParticipantState.isVoted : ParticipantState → Bool
  | .Voted _ _ => true
  | _ => false

/-- The derived `PartialOrd` comparison `a > b` on Rust `Option<Epoch>` values
(`None` sorts below every `Some`), as used by the `DecisionRequest` handlers. -/
def optionEpochGT : Option Epoch → Option Epoch → Bool
  | none, _ => false
  | some _, none => true
  | some a, some b => b < a

/-- Rust `{:?}` rendering of an `Option<Epoch>` (used in a `format!` drop reason). -/
def optionEpochDebug : Option Epoch → String
  | none => "None"
  | some e => "Some(" ++ toString e ++ ")"

/-- Mutation of the first participant found with the given process, setting its
vote (the effect of `participant.vote = Some(vote)` through the `find` borrow in
`coordinator_algorithm.rs`). -/
def record_vote {P : Type} [DecidableEq P] :
    List (Participant P) → P → Bool → List (Participant P)
  | [], _, _ => []
  | p :: rest, proc, v =>
    if p.process = proc then { p with vote := some v } :: rest
    else p :: record_vote rest proc v

/-- Mutation of the first participant found with the given process, setting its
`decision_ack` flag (the effect of `participant.decision_ack = true`). -/
def record_decision_ack {P : Type} [DecidableEq P] :
    List (Participant P) → P → List (Participant P)
  | [], _ => []
  | p :: rest, proc =>
    if p.process = proc then { p with decision_ack := true } :: rest
    else p :: record_decision_ack rest proc

/-- `CoordinatorAlgorithm::push_wait_for_decision_ack` from
`two_phase_commit/coordinator_algorithm.rs` (lines 109-121).  Returns the
context after mutation together with the pushed actions. -/
def push_wait_for_decision_ack {P V : Type} (now : Nat) (context : CoordCtx P) :
    CoordCtx P × List (CoordinatorAction P V) :=
  let ack_timeout_start := now
  let ack_timeout_end := ack_timeout_start + ACK_TIMEOUT_SECONDS
  let context := CoordCtx.set_state context (.WaitingForDecisionAck ack_timeout_start)
  (context, [.Update context (some ack_timeout_end)])

/-- `CoordinatorAlgorithm::push_abort_actions` from
`two_phase_commit/coordinator_algorithm.rs` (lines 71-105). -/
def push_abort_actions {P V : Type} (now : Nat) (context : CoordCtx P) :
    List (CoordinatorAction P V) :=
  let context := CoordCtx.set_state context .Abort
  [CoordinatorAction.Update context none]
    ++ (context.role_context.participants.filter (fun p => p.vote.getD false)).map
        (fun p => CoordinatorAction.SendMessage p.process (.Abort context.epoch))
    ++ [CoordinatorAction.Notify .Abort]
    ++ (push_wait_for_decision_ack now context).2

/-- `CoordinatorAlgorithm::push_advance_epoch_actions` from
`two_phase_commit/coordinator_algorithm.rs` (lines 125-153). -/
def push_advance_epoch_actions {P V : Type} (context : CoordCtx P) :
    CoordCtx P × List (CoordinatorAction P V) :=
  let context :=
    if context.role_context.state = CoordinatorState.Commit then
      { context with last_commit_epoch := some context.epoch }
    else context
  let context := { context with epoch := context.epoch + 1 }
  let context := CoordCtx.set_state context .WaitingForStart
  let context := CoordCtx.set_participants context
    (context.role_context.participants.map (fun p => { p with vote := none, decision_ack := false }))
  (context, [CoordinatorAction.Update context none, CoordinatorAction.Notify .RequestForStart])

/-- `CoordinatorAlgorithm::event` from `two_phase_commit/coordinator_algorithm.rs`
(lines 166-579).  `now` is the value every `self.time_source.now()` reading
returns during this call. -/
def coordinatorEvent {P V : Type} [DecidableEq P] (now : Nat)
    (event : CoordinatorEvent P V) (context : CoordCtx P) :
    Except AlgorithmError (List (CoordinatorAction P V)) :=
  match event with
  | .Start value =>
    let sends := context.role_context.participants.map
      (fun p => CoordinatorAction.SendMessage p.process
        (TwoPhaseCommitMessage.VoteRequest context.epoch value))
    let vote_timeout_start := now
    let vote_timeout_end := vote_timeout_start + VOTE_TIMEOUT_SECONDS
    let context := CoordCtx.set_state context (.Voting vote_timeout_start)
    .ok (sends ++ [CoordinatorAction.Update context (some vote_timeout_end)])
  | .Vote vote =>
    if context.role_context.state ≠ CoordinatorState.WaitingForVote then
      .error (.InvalidState "Vote event when not in WaitingForVote state")
    else if vote then
      let context := CoordCtx.set_state context .Commit
      .ok ([CoordinatorAction.Update context none]
        ++ context.role_context.participants.map
            (fun p => CoordinatorAction.SendMessage p.process
              (TwoPhaseCommitMessage.Commit context.epoch))
        ++ [CoordinatorAction.Notify .Commit]
        ++ (push_wait_for_decision_ack now context).2)
    else
      .ok (push_abort_actions now context)
  | .Alarm =>
    match context.role_context.state with
    | .Voting vote_timeout_start =>
      if now > vote_timeout_start + VOTE_TIMEOUT_SECONDS then
        .ok (push_abort_actions now context)
      else
        .ok []
    | .WaitingForStart =>
      .ok [CoordinatorAction.Notify .RequestForStart, CoordinatorAction.Update context none]
    | .WaitingForVote =>
      .ok [CoordinatorAction.Notify .RequestForVote, CoordinatorAction.Update context none]
    | .WaitingForDecisionAck ack_timeout_start =>
      if now > ack_timeout_start + ACK_TIMEOUT_SECONDS then
        .ok (push_advance_epoch_actions context).2
      else
        .ok []
    | .Commit => .ok (push_advance_epoch_actions context).2
    | .Abort => .ok (push_advance_epoch_actions context).2
  | .Deliver process (.VoteResponse epoch vote) =>
    let context_epoch := context.epoch
    let context_state := context.role_context.state
    match context.role_context.participants.find? (fun p => p.process == process) with
    | none =>
      .ok [CoordinatorAction.Notify (.MessageDropped "sender process is not a participant")]
    | some participant =>
      if context_epoch ≠ epoch then
        .ok [CoordinatorAction.Notify (.MessageDropped "epoch is not the current epoch")]
      else if !context_state.isVoting then
        .ok [CoordinatorAction.Notify (.MessageDropped "context state is not Voting")]
      else if participant.vote.isSome then
        .ok [CoordinatorAction.Notify (.MessageDropped "participant has already voted")]
      else
        let context := CoordCtx.set_participants context
          (record_vote context.role_context.participants process vote)
        let actions := [CoordinatorAction.Update context none]
        if context.role_context.participants.all (fun p => p.vote.isSome) then
          if context.role_context.participants.any (fun p => p.vote == some false) then
            .ok (actions ++ push_abort_actions now context)
          else
            let context := CoordCtx.set_state context .WaitingForVote
            .ok (actions
              ++ [CoordinatorAction.Update context none, CoordinatorAction.Notify .RequestForVote])
        else
          .ok actions
  | .Deliver process (.DecisionRequest epoch) =>
    if context.role_context.participants.any (fun participant => participant.process != process) then
      .ok [CoordinatorAction.Notify (.MessageDropped "sender process is not a participant")]
    else if some epoch = context.last_commit_epoch then
      .ok [CoordinatorAction.SendMessage process (.Commit epoch)]
    else if decide (epoch < context.epoch)
        && (optionEpochGT (some epoch) context.last_commit_epoch
            || context.last_commit_epoch.isNone) then
      .ok [CoordinatorAction.SendMessage process (.Abort epoch)]
    else
      .ok [CoordinatorAction.Notify (.MessageDropped
        ("decision for requested epoch " ++ toString epoch
          ++ " is unknown (current epoch: " ++ toString context.epoch
          ++ ", last commit epoch: " ++ optionEpochDebug context.last_commit_epoch ++ ")"))]
  | .Deliver process (.DecisionAck epoch) =>
    let context_epoch := context.epoch
    let context_state := context.role_context.state
    match context.role_context.participants.find? (fun p => p.process == process) with
    | none =>
      .ok [CoordinatorAction.Notify (.MessageDropped "sender process is not a participant")]
    | some participant =>
      if context_epoch ≠ epoch then
        .ok [CoordinatorAction.Notify (.MessageDropped
          ("epoch " ++ toString epoch ++ " is not the current epoch " ++ toString context_epoch))]
      else if !context_state.isWaitingForDecisionAck then
        .ok [CoordinatorAction.Notify (.MessageDropped "context state is not WaitingForDecisionAck")]
      else if participant.decision_ack then
        .ok [CoordinatorAction.Notify (.MessageDropped "participant has already sent a decision ack")]
      else
        let context := CoordCtx.set_participants context
          (record_decision_ack context.role_context.participants process)
        let actions := [CoordinatorAction.Update context none]
        if context.role_context.participants.all (fun p => p.decision_ack) then
          .ok (actions ++ (push_advance_epoch_actions context).2)
        else
          .ok actions

/-- `ParticipantAlgorithm::event` from `two_phase_commit/participant_algorithm.rs`
(lines 70-373).  `now` is the value every `self.time_source.now()` reading
returns during this call. -/
def participantEvent {P V : Type} [DecidableEq P] (now : Nat)
    (event : ParticipantEvent P V) (context : PartCtx P) :
    Except AlgorithmError (List (ParticipantAction P V)) :=
  match event with
  | .Alarm =>
    match context.role_context.state with
    | .Abort => .error (.InvalidState "Alarm unexpected in Abort state")
    | .Commit => .error (.InvalidState "Alarm unexpected in Commit state")
    | .Voted vote decision_timeout_start =>
      if now > decision_timeout_start + DECISION_TIMEOUT_SECONDS then
        let sends := (context.role_context.participant_processes.filter
            (fun p => p != context.this_process)).map
          (fun p => ParticipantAction.SendMessage p
            (TwoPhaseCommitMessage.DecisionRequest context.epoch))
        let new_decision_timeout_start := now
        let new_decision_timeout_end := new_decision_timeout_start + DECISION_TIMEOUT_SECONDS
        let new_context := PartCtx.set_state context (.Voted vote new_decision_timeout_start)
        .ok (sends
          ++ [ParticipantAction.SendMessage context.coordinator
                (TwoPhaseCommitMessage.DecisionRequest context.epoch)]
          ++ [ParticipantAction.Update new_context (some new_decision_timeout_end)])
      else
        .ok []
    | .WaitingForVote => .error (.InvalidState "Alarm unexpected in WaitForVote state")
    | .WaitingForVoteRequest =>
      .error (.InvalidState "Alarm unexpected in WaitForVoteRequest state")
  | .Deliver process (.VoteRequest epoch value) =>
    if context.coordinator ≠ process then
      .ok [ParticipantAction.Notify (.MessageDropped "sender process is not the coordinator")]
    else if context.epoch ≠ epoch then
      .ok [ParticipantAction.Notify (.MessageDropped "epoch is not the current epoch")]
    else if context.role_context.state ≠ ParticipantState.WaitingForVoteRequest then
      .ok [ParticipantAction.Notify (.MessageDropped "context state is not WaitingForVoteRequest")]
    else
      let context := PartCtx.set_state context .WaitingForVote
      .ok [ParticipantAction.Update context none,
        ParticipantAction.Notify (.RequestForVote value)]
  | .Deliver _process (.Commit epoch) =>
    if context.epoch ≠ epoch then
      .ok [ParticipantAction.Notify (.MessageDropped "epoch is not the current epoch")]
    else if !context.role_context.state.isVoted then
      .ok [ParticipantAction.Notify (.MessageDropped "commit received outside decision window")]
    else
      let context := PartCtx.set_state context .Commit
      .ok [ParticipantAction.Update context none]
  | .Deliver _process (.Abort epoch) =>
    if context.epoch ≠ epoch then
      .ok [ParticipantAction.Notify (.MessageDropped "epoch is not the current epoch")]
    else if !context.role_context.state.isVoted then
      .ok [ParticipantAction.Notify (.MessageDropped "abort received outside decision window")]
    else
      let context := PartCtx.set_state context .Abort
      .ok [ParticipantAction.Update context none]
  | .Deliver process (.DecisionRequest epoch) =>
    if !(context.role_context.participant_processes.contains process
        && !(context.coordinator == process)) then
      .ok [ParticipantAction.Notify
        (.MessageDropped "sender process is not a coordinator or participant")]
    else if some epoch = context.last_commit_epoch then
      .ok [ParticipantAction.SendMessage process (.Commit epoch)]
    else if decide (epoch < context.epoch)
        && (optionEpochGT (some epoch) context.last_commit_epoch
            || context.last_commit_epoch.isNone) then
      .ok [ParticipantAction.SendMessage process (.Abort epoch)]
    else
      .ok [ParticipantAction.Notify (.MessageDropped "decision for requested epoch is unknown")]
  | .Vote vote =>
    if context.role_context.state ≠ ParticipantState.WaitingForVote then
      .error (.InvalidState "Vote event when not in WaitingForVote state")
    else
      let updates :=
        if vote then
          let decision_timeout_start := now
          let decision_timeout_end := decision_timeout_start + DECISION_TIMEOUT_SECONDS
          let context := PartCtx.set_state context (.Voted vote decision_timeout_start)
          [ParticipantAction.Update context (some decision_timeout_end)]
        else
          let context := PartCtx.set_state context .Abort
          [ParticipantAction.Update context none]
      .ok (updates
        ++ [ParticipantAction.SendMessage context.coordinator
              (TwoPhaseCommitMessage.VoteResponse context.epoch vote)])

/-!
## The older module layout `algorithm::two_phase_commit`

The repository carries a second, older copy of the coordinator engine in
`src/libaugrim/src/algorithm/two_phase_commit/`.  Its context type carries the
epoch fields directly, its `Participant` has no `decision_ack`, and its state
enum has no `WaitingForDecisionAck`.  Definitions below are prefixed `Old`.
-/

/-- `Participant` from `algorithm/two_phase_commit/coordinator_context.rs`. -/
structure OldParticipant (P : Type) where
  process : P
  vote : Option Bool
deriving DecidableEq, Repr

/-- `CoordinatorState` from `algorithm/two_phase_commit/coordinator_context.rs`. -/
inductive OldCoordinatorState
  | WaitingForStart
  | Voting (vote_timeout_start : Nat)
  | WaitingForVote
  | Abort
  | Commit
deriving DecidableEq, Repr

/-- `CoordinatorContext` from `algorithm/two_phase_commit/coordinator_context.rs`. -/
structure OldCoordinatorContext (P : Type) where
  alarm : Option Nat
  coordinator : P
  participants : List (OldParticipant P)
  state : OldCoordinatorState
  epoch : Epoch
  last_commit_epoch : Option Epoch
deriving DecidableEq, Repr

/-- `CoordinatorActionAlarm` as used by
`algorithm/two_phase_commit/coordinator_algorithm.rs` (`Set(T)` / `Unset`; its
defining file is not in the tree, the two variants are fixed by usage). -/
inductive CoordinatorActionAlarm
  | Set (t : Nat)
  | Unset
deriving DecidableEq, Repr

/-- `CoordinatorAction` as used by
`algorithm/two_phase_commit/coordinator_algorithm.rs`: a tuple-style `Update`
carrying the role context and a `CoordinatorActionAlarm`. -/
inductive OldCoordinatorAction (P V : Type)
  | Update (context : OldCoordinatorContext P) (alarm : CoordinatorActionAlarm)
  | SendMessage (dest : P) (message : TwoPhaseCommitMessage V)
  | Notify (n : CoordinatorActionNotification)
deriving DecidableEq, Repr

/-- `matches!(s, CoordinatorState::Voting { .. })` for the old layout. -/
def OldCoordinatorState.isVoting : OldCoordinatorState → Bool
  | .Voting _ => true
  | _ => false

/-- vote recording for the old layout's participant list. -/
def old_record_vote {P : Type} [DecidableEq P] :
    List (OldParticipant P) → P → Bool → List (OldParticipant P)
  | [], _, _ => []
  | p :: rest, proc, v =>
    if p.process = proc then { p with vote := some v } :: rest
    else p :: old_record_vote rest proc v

/-- `CoordinatorAlgorithm::push_advance_epoch_actions` from
`algorithm/two_phase_commit/coordinator_algorithm.rs` (lines 102-121): note it
sets `last_commit_epoch` unconditionally and resets no participant slots. -/
def old_push_advance_epoch_actions {P V : Type} (context : OldCoordinatorContext P) :
    OldCoordinatorContext P × List (OldCoordinatorAction P V) :=
  let context := { context with last_commit_epoch := some context.epoch }
  let context := { context with epoch := context.epoch + 1 }
  let context := { context with state := OldCoordinatorState.WaitingForStart }
  (context, [OldCoordinatorAction.Update context .Unset,
    OldCoordinatorAction.Notify .RequestForStart])

/-- `CoordinatorAlgorithm::push_abort_actions` from
`algorithm/two_phase_commit/coordinator_algorithm.rs` (lines 64-98): the abort
decision immediately advances the epoch (there is no decision-ack wait). -/
def old_push_abort_actions {P V : Type} (context : OldCoordinatorContext P) :
    List (OldCoordinatorAction P V) :=
  let context := { context with state := OldCoordinatorState.Abort }
  [OldCoordinatorAction.Update context .Unset]
    ++ (context.participants.filter (fun p => p.vote.getD false)).map
        (fun p => OldCoordinatorAction.SendMessage p.process (.Abort context.epoch))
    ++ [OldCoordinatorAction.Notify .Abort]
    ++ (old_push_advance_epoch_actions context).2

/-- `CoordinatorAlgorithm::event` from
`algorithm/two_phase_commit/coordinator_algorithm.rs` (lines 134-407). -/
def oldCoordinatorEvent {P V : Type} [DecidableEq P] (now : Nat)
    (event : CoordinatorEvent P V) (context : OldCoordinatorContext P) :
    Except AlgorithmError (List (OldCoordinatorAction P V)) :=
  match event with
  | .Start value =>
    let sends := context.participants.map
      (fun p => OldCoordinatorAction.SendMessage p.process
        (TwoPhaseCommitMessage.VoteRequest context.epoch value))
    let vote_timeout_start := now
    let vote_timeout_end := vote_timeout_start + VOTE_TIMEOUT_SECONDS
    let context := { context with state := OldCoordinatorState.Voting vote_timeout_start }
    .ok (sends ++ [OldCoordinatorAction.Update context (.Set vote_timeout_end)])
  | .Vote vote =>
    if vote then
      let context := { context with state := OldCoordinatorState.Commit }
      .ok ([OldCoordinatorAction.Update context .Unset]
        ++ context.participants.map
            (fun p => OldCoordinatorAction.SendMessage p.process
              (TwoPhaseCommitMessage.Commit context.epoch))
        ++ (old_push_advance_epoch_actions context).2)
    else
      .ok (old_push_abort_actions context)
  | .Alarm =>
    match context.state with
    | .Voting vote_timeout_start =>
      if now > vote_timeout_start + VOTE_TIMEOUT_SECONDS then
        .ok (old_push_abort_actions context)
      else
        .ok []
    | .WaitingForStart => .ok [OldCoordinatorAction.Notify .RequestForStart]
    | .WaitingForVote => .ok [OldCoordinatorAction.Notify .RequestForVote]
    | .Commit => .ok (old_push_advance_epoch_actions context).2
    | .Abort => .ok (old_push_advance_epoch_actions context).2
  | .Deliver process (.VoteResponse epoch vote) =>
    let context_epoch := context.epoch
    let context_state := context.state
    match context.participants.find? (fun p => p.process == process) with
    | none =>
      .ok [OldCoordinatorAction.Notify (.MessageDropped "sender process is not a participant")]
    | some participant =>
      if context_epoch ≠ epoch then
        .ok [OldCoordinatorAction.Notify (.MessageDropped "epoch is not the current epoch")]
      else if context_state.isVoting then
        .ok [OldCoordinatorAction.Notify (.MessageDropped "context state is not Voting")]
      else if participant.vote.isSome then
        .ok [OldCoordinatorAction.Notify (.MessageDropped "participant has already voted")]
      else
        let context := { context with
          participants := old_record_vote context.participants process vote }
        let actions := [OldCoordinatorAction.Update context .Unset]
        if context.participants.all (fun p => p.vote.isSome) then
          if context.participants.any (fun p => p.vote == some false) then
            .ok (actions ++ old_push_abort_actions context)
          else
            let context := { context with state := OldCoordinatorState.WaitingForVote }
            .ok (actions ++ [OldCoordinatorAction.Update context .Unset,
              OldCoordinatorAction.Notify .RequestForVote])
        else
          .ok actions
  | .Deliver process (.DecisionRequest epoch) =>
    if context.participants.any (fun participant => participant.process != process) then
      .ok [OldCoordinatorAction.Notify (.MessageDropped "sender process is not a participant")]
    else if some epoch = context.last_commit_epoch then
      .ok [OldCoordinatorAction.SendMessage process (.Commit epoch)]
    else if decide (epoch < context.epoch)
        && (optionEpochGT (some epoch) context.last_commit_epoch
            || context.last_commit_epoch.isNone) then
      .ok [OldCoordinatorAction.SendMessage process (.Abort epoch)]
    else
      .ok [OldCoordinatorAction.Notify
        (.MessageDropped "decision for requested epoch is unknown")]
  | .Deliver _process (.DecisionAck _epoch) =>
    -- The old layout's `CoordinatorMessage` (its `coordinator_message.rs` is not
    -- in the tree) has no `DecisionAck` handling in this `event` copy; the
    -- shared `CoordinatorEvent` type is reused here, and this arm is outside
    -- the behavior any claim depends on.  Treated as an internal error.
    .error (.Internal "unhandled message")

/-!
## Auxiliary decision/ordering checkers and concrete instances
-/

/-- `true` iff every `SendMessage` in the list is preceded (strictly) by some
`Update`; `seen` records whether an `Update` has been passed already. -/
def updateBeforeSends {P V : Type} : Bool → List (CoordinatorAction P V) → Bool
  | _, [] => true
  | _, (.Update _ _) :: rest => updateBeforeSends true rest
  | seen, (.SendMessage _ _) :: rest => seen && updateBeforeSends seen rest
  | seen, (.Notify _) :: rest => updateBeforeSends seen rest

/-- The commit decision, or a state that follows it in the coordinator's
lifecycle (`WaitingForDecisionAck`, `WaitingForStart` after epoch advance). -/
def decidedOrAfterCommit : CoordinatorState → Bool
  | .Commit => true
  | .WaitingForDecisionAck _ => true
  | .WaitingForStart => true
  | _ => false

/-- The abort decision, or a state that follows it in the coordinator's
lifecycle. -/
def decidedOrAfterAbort : CoordinatorState → Bool
  | .Abort => true
  | .WaitingForDecisionAck _ => true
  | .WaitingForStart => true
  | _ => false

/-- Guard for one action while scanning an action list: a `Commit`/`Abort`
message sent to a process in `ps` is only allowed once an `Update` whose
context state is the corresponding decision (or a later state) has been seen;
other actions are always allowed. -/
def sendGuard {P V : Type} [DecidableEq P] (ps : List P) (cOk aOk : Bool) :
    CoordinatorAction P V → Bool
  | .SendMessage q (.Commit _) => !(ps.contains q) || cOk
  | .SendMessage q (.Abort _) => !(ps.contains q) || aOk
  | _ => true

/-- Scan of an action list checking `sendGuard` for every element, accumulating
in `cOk`/`aOk` whether an `Update` with a commit-decided (resp. abort-decided)
or later state has been passed. -/
def decisionSendsOrdered {P V : Type} [DecidableEq P] (ps : List P) :
    Bool → Bool → List (CoordinatorAction P V) → Bool
  | _, _, [] => true
  | cOk, aOk, (.Update c _) :: rest =>
    decisionSendsOrdered ps (cOk || decidedOrAfterCommit c.role_context.state)
      (aOk || decidedOrAfterAbort c.role_context.state) rest
  | cOk, aOk, a :: rest =>
    sendGuard ps cOk aOk a && decisionSendsOrdered ps cOk aOk rest

/-!
Concrete instances (processes and values are `Nat`) used by counterexample,
divergence and witness theorems below.
-/

/-- Coordinator context with an empty participant list, epoch 5, last commit
epoch 3 (buildable: the context builder performs no non-emptiness check). -/
def c1EmptyCtx : CoordCtx Nat :=
  ⟨none, 0, 5, some 3, ⟨[], CoordinatorState.WaitingForStart⟩, 0⟩

/-- Coordinator context with the single participant `7`, epoch 5, last commit
epoch 3. -/
def c1CoordCtx : CoordCtx Nat :=
  ⟨none, 0, 5, some 3, ⟨[⟨7, none, false⟩], CoordinatorState.WaitingForStart⟩, 0⟩

/-- Participant context (coordinator `9`, peers `2` and `3`), epoch 5, last
commit epoch 3. -/
def c1PartCtx : PartCtx Nat :=
  ⟨none, 9, 5, some 3, ⟨[2, 3], ParticipantState.WaitingForVoteRequest⟩, 2⟩

/-- Old-layout coordinator context in state `Abort` at epoch 4 with no commit
recorded yet and participant `1` having voted yes. -/
def c2OldCtx : OldCoordinatorContext Nat :=
  ⟨none, 0, [⟨1, some true⟩], OldCoordinatorState.Abort, 4, none⟩

/-- The context the old layout emits when advancing the epoch from `c2OldCtx`:
`last_commit_epoch` has become `Some(4)` although epoch 4 aborted, and the
recorded vote is not reset. -/
def c2OldCtxAfter : OldCoordinatorContext Nat :=
  ⟨none, 0, [⟨1, some true⟩], OldCoordinatorState.WaitingForStart, 5, some 4⟩

/-- Current-layout coordinator context in state `Abort` at epoch 4 with no
commit recorded yet and participant `1` having voted yes. -/
def c2NewCtx : CoordCtx Nat :=
  ⟨none, 0, 4, none, ⟨[⟨1, some true, false⟩], CoordinatorState.Abort⟩, 0⟩

/-- The context the current layout emits when advancing the epoch from
`c2NewCtx`: `last_commit_epoch` is unchanged and the vote slot is reset. -/
def c2NewCtxAfter : CoordCtx Nat :=
  ⟨none, 0, 5, none, ⟨[⟨1, none, false⟩], CoordinatorState.WaitingForStart⟩, 0⟩

/-- Coordinator context with the single participant `7`, epoch 5, last commit
epoch 3, used for the `DecisionRequest`-reply ordering counterexample. -/
def c3Ctx : CoordCtx Nat :=
  ⟨none, 0, 5, some 3, ⟨[⟨7, none, false⟩], CoordinatorState.WaitingForStart⟩, 0⟩

/-- Coordinator context with the single participant `7`, epoch 5, last commit
epoch 3, used for the `DecisionRequest` lookup witness. -/
def c4CoordCtx : CoordCtx Nat :=
  ⟨none, 0, 5, some 3, ⟨[⟨7, none, false⟩], CoordinatorState.WaitingForStart⟩, 0⟩

/-- Participant context (coordinator `9`, peers `2` and `3`), epoch 5, last
commit epoch 3, used for the `DecisionRequest` lookup witness. -/
def c4PartCtx : PartCtx Nat :=
  ⟨none, 9, 5, some 3, ⟨[2, 3], ParticipantState.WaitingForVoteRequest⟩, 2⟩

/-- Idle two-participant coordinator context at epoch 0. -/
def c5Ctx : CoordCtx Nat :=
  ⟨none, 0, 0, none,
    ⟨[⟨1, none, false⟩, ⟨2, none, false⟩], CoordinatorState.WaitingForStart⟩, 0⟩

/-- Coordinator context awaiting its own vote, both participants voted yes. -/
def c6VoteCtx : CoordCtx Nat :=
  ⟨none, 0, 0, none,
    ⟨[⟨1, some true, false⟩, ⟨2, some true, false⟩], CoordinatorState.WaitingForVote⟩, 0⟩

/-- Coordinator context in the voting window started at time 0: participant `1`
voted yes, participant `2` has not voted. -/
def c6AlarmCtx : CoordCtx Nat :=
  ⟨none, 0, 0, none,
    ⟨[⟨1, some true, false⟩, ⟨2, none, false⟩], CoordinatorState.Voting 0⟩, 0⟩

/-- Coordinator context in the voting window started at time 0: participant `1`
voted yes, a `VoteResponse(0, false)` from `2` completes the vote set. -/
def c6RespCtx : CoordCtx Nat :=
  ⟨none, 0, 0, none,
    ⟨[⟨1, some true, false⟩, ⟨2, none, false⟩], CoordinatorState.Voting 0⟩, 0⟩

/-- Coordinator context in the voting window at epoch 5 (for the epoch-filter
witness). -/
def c7CoordCtx : CoordCtx Nat :=
  ⟨none, 0, 5, none, ⟨[⟨1, none, false⟩], CoordinatorState.Voting 0⟩, 0⟩

/-- Coordinator context awaiting decision acks at epoch 5 (for the epoch-filter
witness). -/
def c7AckCtx : CoordCtx Nat :=
  ⟨none, 0, 5, none,
    ⟨[⟨1, some true, false⟩], CoordinatorState.WaitingForDecisionAck 0⟩, 0⟩

/-- Participant context in its uncertainty period at epoch 5 (for the
epoch-filter witness). -/
def c7PartCtx : PartCtx Nat :=
  ⟨none, 9, 5, none, ⟨[2, 3], ParticipantState.Voted true 0⟩, 2⟩

/-- Idle coordinator context (for the invalid-state witness: a `Vote` event is
not expected in `WaitingForStart`). -/
def c8CoordCtx : CoordCtx Nat :=
  ⟨none, 0, 0, none, ⟨[⟨1, none, false⟩], CoordinatorState.WaitingForStart⟩, 0⟩

/-- Participant context in state `Abort` (for the invalid-state witness: both a
`Vote` event and an `Alarm` event are unexpected there). -/
def c8PartCtx : PartCtx Nat :=
  ⟨none, 9, 0, none, ⟨[2, 3], ParticipantState.Abort⟩, 2⟩

/-- Current-layout coordinator context in the voting window (for the
vote-recording divergence between the two layouts). -/
def c9NewCtx : CoordCtx Nat :=
  ⟨none, 0, 0, none, ⟨[⟨1, none, false⟩], CoordinatorState.Voting 0⟩, 0⟩

/-- Old-layout coordinator context in the voting window (for the vote-recording
divergence between the two layouts). -/
def c9OldCtx : OldCoordinatorContext Nat :=
  ⟨none, 0, [⟨1, none⟩], OldCoordinatorState.Voting 0, 0, none⟩

/-- Two-participant coordinator context in the voting window, no votes yet (for
the alarm-clearing witness). -/
def c10VoteCtx : CoordCtx Nat :=
  ⟨none, 0, 0, none,
    ⟨[⟨1, none, false⟩, ⟨2, none, false⟩], CoordinatorState.Voting 0⟩, 0⟩

/-- Two-participant coordinator context awaiting decision acks, none received
yet (for the alarm-clearing witness). -/
def c10AckCtx : CoordCtx Nat :=
  ⟨none, 0, 0, none,
    ⟨[⟨1, some true, false⟩, ⟨2, some true, false⟩],
      CoordinatorState.WaitingForDecisionAck 0⟩, 0⟩

/-!
## Theorems
-/

/-- If a process appears in the projection of a participant list, `find?` on
that process succeeds. -/
theorem find?_of_mem_process {P : Type} [DecidableEq P] (l : List (Participant P)) (p : P)
    (h : p ∈ l.map Participant.process) :
    ∃ q, l.find? (fun x => x.process == p) = some q := by
  induction l with
  | nil => simp at h
  | cons a t ih =>
    by_cases ha : (a.process == p) = true
    · exact ⟨a, by simp [List.find?_cons, ha]⟩
    · have ha' : (a.process == p) = false := by simpa using ha
      have hmem : p ∈ t.map Participant.process := by
        rcases List.mem_map.mp h with ⟨x, hx, hxp⟩
        rcases List.mem_cons.mp hx with rfl | hx
        · exact absurd hxp (by simpa using ha)
        · exact List.mem_map.mpr ⟨x, hx, hxp⟩
      rcases ih hmem with ⟨q, hq⟩
      exact ⟨q, by simp [List.find?_cons, ha', hq]⟩

/-- C8: a `Vote` event outside `WaitingForVote` yields an `InvalidState` error
(and no actions) in both engines, and a participant `Alarm` in `Abort`,
`Commit`, `WaitingForVote` or `WaitingForVoteRequest` yields an `InvalidState`
error (and no actions); the context is returned unchanged in the sense that no
`Update` is produced. -/
theorem vote_and_alarm_invalid_state {P V : Type} [DecidableEq P] :
    (∀ (now : Nat) (b : Bool) (ctx : CoordCtx P),
      ctx.role_context.state ≠ CoordinatorState.WaitingForVote →
      coordinatorEvent (V := V) now (CoordinatorEvent.Vote b) ctx
        = Except.error (AlgorithmError.InvalidState "Vote event when not in WaitingForVote state"))
    ∧ (∀ (now : Nat) (b : Bool) (pctx : PartCtx P),
      pctx.role_context.state ≠ ParticipantState.WaitingForVote →
      participantEvent (V := V) now (ParticipantEvent.Vote b) pctx
        = Except.error (AlgorithmError.InvalidState "Vote event when not in WaitingForVote state"))
    ∧ (∀ (now : Nat) (pctx : PartCtx P),
      pctx.role_context.state = ParticipantState.Abort →
      participantEvent (V := V) now ParticipantEvent.Alarm pctx
        = Except.error (AlgorithmError.InvalidState "Alarm unexpected in Abort state"))
    ∧ (∀ (now : Nat) (pctx : PartCtx P),
      pctx.role_context.state = ParticipantState.Commit →
      participantEvent (V := V) now ParticipantEvent.Alarm pctx
        = Except.error (AlgorithmError.InvalidState "Alarm unexpected in Commit state"))
    ∧ (∀ (now : Nat) (pctx : PartCtx P),
      pctx.role_context.state = ParticipantState.WaitingForVote →
      participantEvent (V := V) now ParticipantEvent.Alarm pctx
        = Except.error (AlgorithmError.InvalidState "Alarm unexpected in WaitForVote state"))
    ∧ (∀ (now : Nat) (pctx : PartCtx P),
      pctx.role_context.state = ParticipantState.WaitingForVoteRequest →
      participantEvent (V := V) now ParticipantEvent.Alarm pctx
        = Except.error (AlgorithmError.InvalidState "Alarm unexpected in WaitForVoteRequest state")) := by
  refine ⟨?_, ?_, ?_, ?_, ?_, ?_⟩ <;> intros <;>
    simp_all [coordinatorEvent, participantEvent]

/-- C8 witness: concrete invalid-state evaluations. -/
theorem vote_and_alarm_invalid_state_witness :
    coordinatorEvent (V := Nat) 0 (CoordinatorEvent.Vote true) c8CoordCtx
      = Except.error (AlgorithmError.InvalidState "Vote event when not in WaitingForVote state")
    ∧ participantEvent (V := Nat) 0 (ParticipantEvent.Vote false) c8PartCtx
      = Except.error (AlgorithmError.InvalidState "Vote event when not in WaitingForVote state")
    ∧ participantEvent (V := Nat) 0 ParticipantEvent.Alarm c8PartCtx
      = Except.error (AlgorithmError.InvalidState "Alarm unexpected in Abort state") :=
  ⟨(vote_and_alarm_invalid_state (P := Nat) (V := Nat)).1 0 true c8CoordCtx (by decide),
   (vote_and_alarm_invalid_state (P := Nat) (V := Nat)).2.1 0 false c8PartCtx (by decide),
   (vote_and_alarm_invalid_state (P := Nat) (V := Nat)).2.2.1 0 c8PartCtx (by decide)⟩

/-- C7: a delivered `VoteResponse`, `Commit`, `Abort` or `DecisionAck` whose
epoch differs from the context epoch (with, for the coordinator messages, a
sender that is a known participant) produces a single `MessageDropped`
notification and no `Update` action. -/
theorem epoch_filter_drops {P V : Type} [DecidableEq P] :
    (∀ (now : Nat) (p : P) (e : Epoch) (v : Bool) (ctx : CoordCtx P),
      p ∈ ctx.role_context.participants.map Participant.process → ctx.epoch ≠ e →
      coordinatorEvent (V := V) now (CoordinatorEvent.Deliver p (.VoteResponse e v)) ctx
        = Except.ok [CoordinatorAction.Notify (.MessageDropped "epoch is not the current epoch")])
    ∧ (∀ (now : Nat) (p : P) (e : Epoch) (ctx : CoordCtx P),
      p ∈ ctx.role_context.participants.map Participant.process → ctx.epoch ≠ e →
      coordinatorEvent (V := V) now (CoordinatorEvent.Deliver p (.DecisionAck e)) ctx
        = Except.ok [CoordinatorAction.Notify (.MessageDropped
            ("epoch " ++ toString e ++ " is not the current epoch " ++ toString ctx.epoch))])
    ∧ (∀ (now : Nat) (p : P) (e : Epoch) (pctx : PartCtx P), pctx.epoch ≠ e →
      participantEvent (V := V) now (ParticipantEvent.Deliver p (.Commit e)) pctx
        = Except.ok [ParticipantAction.Notify (.MessageDropped "epoch is not the current epoch")])
    ∧ (∀ (now : Nat) (p : P) (e : Epoch) (pctx : PartCtx P), pctx.epoch ≠ e →
      participantEvent (V := V) now (ParticipantEvent.Deliver p (.Abort e)) pctx
        = Except.ok [ParticipantAction.Notify (.MessageDropped "epoch is not the current epoch")]) := by
  refine ⟨?_, ?_, ?_, ?_⟩
  · intro now p e v ctx hmem hne
    rcases find?_of_mem_process _ _ hmem with ⟨q, hq⟩
    simp [coordinatorEvent, hq, hne]
  · intro now p e ctx hmem hne
    rcases find?_of_mem_process _ _ hmem with ⟨q, hq⟩
    simp [coordinatorEvent, hq, hne]
  · intro now p e pctx hne
    simp [participantEvent, hne]
  · intro now p e pctx hne
    simp [participantEvent, hne]

/-- C7 witness: stale messages at concrete contexts with epoch 5. -/
theorem epoch_filter_drops_witness :
    coordinatorEvent (V := Nat) 0 (CoordinatorEvent.Deliver 1 (.VoteResponse 1 true)) c7CoordCtx
      = Except.ok [CoordinatorAction.Notify (.MessageDropped "epoch is not the current epoch")]
    ∧ coordinatorEvent (V := Nat) 0 (CoordinatorEvent.Deliver 1 (.DecisionAck 4)) c7AckCtx
      = Except.ok [CoordinatorAction.Notify (.MessageDropped "epoch 4 is not the current epoch 5")]
    ∧ participantEvent (V := Nat) 0 (ParticipantEvent.Deliver 9 (.Commit 4)) c7PartCtx
      = Except.ok [ParticipantAction.Notify (.MessageDropped "epoch is not the current epoch")]
    ∧ participantEvent (V := Nat) 0 (ParticipantEvent.Deliver 9 (.Abort 6)) c7PartCtx
      = Except.ok [ParticipantAction.Notify (.MessageDropped "epoch is not the current epoch")] :=
  ⟨(epoch_filter_drops (P := Nat) (V := Nat)).1 0 1 1 true c7CoordCtx (by decide) (by decide),
   (epoch_filter_drops (P := Nat) (V := Nat)).2.1 0 1 4 c7AckCtx (by decide) (by decide),
   (epoch_filter_drops (P := Nat) (V := Nat)).2.2.1 0 9 4 c7PartCtx (by decide),
   (epoch_filter_drops (P := Nat) (V := Nat)).2.2.2 0 9 6 c7PartCtx (by decide)⟩

/-- C10: recording a `VoteResponse` that does not complete the vote set, or a
`DecisionAck` that does not complete the ack set, emits exactly one `Update`
whose `alarm` field is `None` although the context stays in `Voting`
(resp. `WaitingForDecisionAck`), so the pending timeout alarm is cleared. -/
theorem record_update_clears_alarm {P V : Type} [DecidableEq P] :
    (∀ (now : Nat) (p : P) (v : Bool) (ctx : CoordCtx P) (q : Participant P) (t : Nat),
      ctx.role_context.participants.find? (fun x => x.process == p) = some q →
      q.vote = none →
      ctx.role_context.state = CoordinatorState.Voting t →
      ((record_vote ctx.role_context.participants p v).all (fun x => x.vote.isSome)) = false →
      coordinatorEvent (V := V) now (CoordinatorEvent.Deliver p (.VoteResponse ctx.epoch v)) ctx
        = Except.ok [CoordinatorAction.Update
            (CoordCtx.set_participants ctx (record_vote ctx.role_context.participants p v)) none]
        ∧ (CoordCtx.set_participants ctx
            (record_vote ctx.role_context.participants p v)).role_context.state
          = CoordinatorState.Voting t)
    ∧ (∀ (now : Nat) (p : P) (ctx : CoordCtx P) (q : Participant P) (t : Nat),
      ctx.role_context.participants.find? (fun x => x.process == p) = some q →
      q.decision_ack = false →
      ctx.role_context.state = CoordinatorState.WaitingForDecisionAck t →
      ((record_decision_ack ctx.role_context.participants p).all
          (fun x => x.decision_ack)) = false →
      coordinatorEvent (V := V) now (CoordinatorEvent.Deliver p (.DecisionAck ctx.epoch)) ctx
        = Except.ok [CoordinatorAction.Update
            (CoordCtx.set_participants ctx
              (record_decision_ack ctx.role_context.participants p)) none]
        ∧ (CoordCtx.set_participants ctx
            (record_decision_ack ctx.role_context.participants p)).role_context.state
          = CoordinatorState.WaitingForDecisionAck t) := by
  constructor
  · intro now p v ctx q t hq hv hst hall
    refine ⟨?_, by simp [CoordCtx.set_participants, hst]⟩
    simp [coordinatorEvent, hq, hst, hv, CoordinatorState.isVoting, CoordCtx.set_participants, hall]
  · intro now p ctx q t hq hv hst hall
    refine ⟨?_, by simp [CoordCtx.set_participants, hst]⟩
    simp [coordinatorEvent, hq, hst, hv, CoordinatorState.isWaitingForDecisionAck,
      CoordCtx.set_participants, hall]

/-- C10 witness: concrete non-completing recordings that clear the alarm. -/
theorem record_update_clears_alarm_witness :
    coordinatorEvent (V := Nat) 0 (CoordinatorEvent.Deliver 1 (.VoteResponse 0 true)) c10VoteCtx
      = Except.ok [CoordinatorAction.Update
          (CoordCtx.set_participants c10VoteCtx
            (record_vote c10VoteCtx.role_context.participants 1 true)) none]
    ∧ coordinatorEvent (V := Nat) 0 (CoordinatorEvent.Deliver 1 (.DecisionAck 0)) c10AckCtx
      = Except.ok [CoordinatorAction.Update
          (CoordCtx.set_participants c10AckCtx
            (record_decision_ack c10AckCtx.role_context.participants 1)) none] :=
  ⟨((record_update_clears_alarm (P := Nat) (V := Nat)).1 0 1 true c10VoteCtx ⟨1, none, false⟩ 0
      (by decide) (by decide) (by decide) (by decide)).1,
   ((record_update_clears_alarm (P := Nat) (V := Nat)).2 0 1 c10AckCtx ⟨1, some true, false⟩ 0
      (by decide) (by decide) (by decide) (by decide)).1⟩

/-- The code's abort-reply test `Some(e) > last_commit_epoch || last_commit_epoch.is_none()`
matches the spec-level condition. -/
theorem optionEpochGT_or_isNone (lce : Option Epoch) (e : Epoch) :
    (optionEpochGT (some e) lce || lce.isNone) = true
      ↔ (lce = none ∨ ∃ l, lce = some l ∧ l < e) := by
  cases lce <;> simp [optionEpochGT]

/-- Reduction of the coordinator's `DecisionRequest` handler once the sender
validation check passes. -/
theorem coordinatorEvent_decision_request {P V : Type} [DecidableEq P] (now : Nat) (p : P)
    (e : Epoch) (ctx : CoordCtx P)
    (hv : (ctx.role_context.participants.any (fun x => x.process != p)) = false) :
    coordinatorEvent (V := V) now (CoordinatorEvent.Deliver p (.DecisionRequest e)) ctx =
      if some e = ctx.last_commit_epoch then
        Except.ok [CoordinatorAction.SendMessage p (.Commit e)]
      else if decide (e < ctx.epoch)
          && (optionEpochGT (some e) ctx.last_commit_epoch || ctx.last_commit_epoch.isNone) then
        Except.ok [CoordinatorAction.SendMessage p (.Abort e)]
      else
        Except.ok [CoordinatorAction.Notify (.MessageDropped
          ("decision for requested epoch " ++ toString e
            ++ " is unknown (current epoch: " ++ toString ctx.epoch
            ++ ", last commit epoch: " ++ optionEpochDebug ctx.last_commit_epoch ++ ")"))] := by
  simp [coordinatorEvent, hv]

/-- Reduction of the participant's `DecisionRequest` handler once the sender
validation check passes. -/
theorem participantEvent_decision_request {P V : Type} [DecidableEq P] (now : Nat) (p : P)
    (e : Epoch) (pctx : PartCtx P)
    (hv : (pctx.role_context.participant_processes.contains p
      && !(pctx.coordinator == p)) = true) :
    participantEvent (V := V) now (ParticipantEvent.Deliver p (.DecisionRequest e)) pctx =
      if some e = pctx.last_commit_epoch then
        Except.ok [ParticipantAction.SendMessage p (.Commit e)]
      else if decide (e < pctx.epoch)
          && (optionEpochGT (some e) pctx.last_commit_epoch || pctx.last_commit_epoch.isNone) then
        Except.ok [ParticipantAction.SendMessage p (.Abort e)]
      else
        Except.ok [ParticipantAction.Notify
          (.MessageDropped "decision for requested epoch is unknown")] := by
  have hv' : p ∈ pctx.role_context.participant_processes ∧ ¬pctx.coordinator = p := by
    simpa using hv
  simp [participantEvent, hv]
  intro h
  rcases h with h | h
  · exact absurd hv'.1 h
  · exact absurd h hv'.2

/-- C4: for a sender passing validation, a `DecisionRequest(e)` is answered with
`Commit(e)` iff `last_commit_epoch == Some(e)`; with `Abort(e)` iff
`e < epoch` and the last commit epoch is absent or below `e`; and in all
remaining cases the sole output is a `MessageDropped` notification — the same
way in the coordinator and the participant engine. -/
theorem decision_request_lookup {P V : Type} [DecidableEq P] :
    (∀ (now : Nat) (p : P) (e : Epoch) (ctx : CoordCtx P),
      (ctx.role_context.participants.any (fun x => x.process != p)) = false →
      ((coordinatorEvent (V := V) now (CoordinatorEvent.Deliver p (.DecisionRequest e)) ctx
          = Except.ok [CoordinatorAction.SendMessage p (.Commit e)])
        ↔ ctx.last_commit_epoch = some e)
      ∧ ((coordinatorEvent (V := V) now (CoordinatorEvent.Deliver p (.DecisionRequest e)) ctx
          = Except.ok [CoordinatorAction.SendMessage p (.Abort e)])
        ↔ (ctx.last_commit_epoch ≠ some e ∧ e < ctx.epoch
            ∧ (ctx.last_commit_epoch = none ∨ ∃ l, ctx.last_commit_epoch = some l ∧ l < e)))
      ∧ ((ctx.last_commit_epoch ≠ some e
          ∧ ¬(e < ctx.epoch
              ∧ (ctx.last_commit_epoch = none ∨ ∃ l, ctx.last_commit_epoch = some l ∧ l < e))) →
        ∃ s, coordinatorEvent (V := V) now (CoordinatorEvent.Deliver p (.DecisionRequest e)) ctx
          = Except.ok [CoordinatorAction.Notify (.MessageDropped s)]))
    ∧ (∀ (now : Nat) (p : P) (e : Epoch) (pctx : PartCtx P),
      (pctx.role_context.participant_processes.contains p
        && !(pctx.coordinator == p)) = true →
      ((participantEvent (V := V) now (ParticipantEvent.Deliver p (.DecisionRequest e)) pctx
          = Except.ok [ParticipantAction.SendMessage p (.Commit e)])
        ↔ pctx.last_commit_epoch = some e)
      ∧ ((participantEvent (V := V) now (ParticipantEvent.Deliver p (.DecisionRequest e)) pctx
          = Except.ok [ParticipantAction.SendMessage p (.Abort e)])
        ↔ (pctx.last_commit_epoch ≠ some e ∧ e < pctx.epoch
            ∧ (pctx.last_commit_epoch = none ∨ ∃ l, pctx.last_commit_epoch = some l ∧ l < e)))
      ∧ ((pctx.last_commit_epoch ≠ some e
          ∧ ¬(e < pctx.epoch
              ∧ (pctx.last_commit_epoch = none ∨ ∃ l, pctx.last_commit_epoch = some l ∧ l < e))) →
        ∃ s, participantEvent (V := V) now (ParticipantEvent.Deliver p (.DecisionRequest e)) pctx
          = Except.ok [ParticipantAction.Notify (.MessageDropped s)])) := by
  constructor
  · intro now p e ctx hv
    rw [coordinatorEvent_decision_request now p e ctx hv]
    by_cases h1 : some e = ctx.last_commit_epoch
    · rw [if_pos h1]
      refine ⟨iff_of_true rfl h1.symm, iff_of_false (by simp) (fun hr => hr.1 h1.symm), ?_⟩
      intro h
      exact absurd h1.symm h.1
    · rw [if_neg h1]
      by_cases h2 : (decide (e < ctx.epoch)
          && (optionEpochGT (some e) ctx.last_commit_epoch
              || ctx.last_commit_epoch.isNone)) = true
      · have h2' := h2
        rw [Bool.and_eq_true, decide_eq_true_iff, optionEpochGT_or_isNone] at h2'
        rw [if_pos h2]
        refine ⟨iff_of_false (by simp) (fun hlce => h1 hlce.symm), ?_, ?_⟩
        · exact iff_of_true rfl ⟨fun hc => h1 hc.symm, h2'.1, h2'.2⟩
        · intro h
          exact absurd ⟨h2'.1, h2'.2⟩ h.2
      · rw [if_neg h2]
        refine ⟨iff_of_false (by simp) (fun hlce => h1 hlce.symm), ?_, fun _ => ⟨_, rfl⟩⟩
        refine iff_of_false (by simp) (fun hr => ?_)
        apply h2
        rw [Bool.and_eq_true, decide_eq_true_iff, optionEpochGT_or_isNone]
        exact ⟨hr.2.1, hr.2.2⟩
  · intro now p e pctx hv
    rw [participantEvent_decision_request now p e pctx hv]
    by_cases h1 : some e = pctx.last_commit_epoch
    · rw [if_pos h1]
      refine ⟨iff_of_true rfl h1.symm, iff_of_false (by simp) (fun hr => hr.1 h1.symm), ?_⟩
      intro h
      exact absurd h1.symm h.1
    · rw [if_neg h1]
      by_cases h2 : (decide (e < pctx.epoch)
          && (optionEpochGT (some e) pctx.last_commit_epoch
              || pctx.last_commit_epoch.isNone)) = true
      · have h2' := h2
        rw [Bool.and_eq_true, decide_eq_true_iff, optionEpochGT_or_isNone] at h2'
        rw [if_pos h2]
        refine ⟨iff_of_false (by simp) (fun hlce => h1 hlce.symm), ?_, ?_⟩
        · exact iff_of_true rfl ⟨fun hc => h1 hc.symm, h2'.1, h2'.2⟩
        · intro h
          exact absurd ⟨h2'.1, h2'.2⟩ h.2
      · rw [if_neg h2]
        refine ⟨iff_of_false (by simp) (fun hlce => h1 hlce.symm), ?_, fun _ => ⟨_, rfl⟩⟩
        refine iff_of_false (by simp) (fun hr => ?_)
        apply h2
        rw [Bool.and_eq_true, decide_eq_true_iff, optionEpochGT_or_isNone]
        exact ⟨hr.2.1, hr.2.2⟩

/-- C4 witness: the spec's scenario `S6` lookups at epoch 5 with last commit
epoch 3, for both engines. -/
theorem decision_request_lookup_witness :
    coordinatorEvent (V := Nat) 0 (CoordinatorEvent.Deliver 7 (.DecisionRequest 3)) c4CoordCtx
      = Except.ok [CoordinatorAction.SendMessage 7 (.Commit 3)]
    ∧ coordinatorEvent (V := Nat) 0 (CoordinatorEvent.Deliver 7 (.DecisionRequest 4)) c4CoordCtx
      = Except.ok [CoordinatorAction.SendMessage 7 (.Abort 4)]
    ∧ participantEvent (V := Nat) 0 (ParticipantEvent.Deliver 3 (.DecisionRequest 3)) c4PartCtx
      = Except.ok [ParticipantAction.SendMessage 3 (.Commit 3)]
    ∧ participantEvent (V := Nat) 0 (ParticipantEvent.Deliver 3 (.DecisionRequest 4)) c4PartCtx
      = Except.ok [ParticipantAction.SendMessage 3 (.Abort 4)] :=
  ⟨((decision_request_lookup (P := Nat) (V := Nat)).1 0 7 3 c4CoordCtx (by decide)).1.mpr
      (by decide),
   ((decision_request_lookup (P := Nat) (V := Nat)).1 0 7 4 c4CoordCtx (by decide)).2.1.mpr
      (by decide),
   ((decision_request_lookup (P := Nat) (V := Nat)).2 0 3 3 c4PartCtx (by decide)).1.mpr
      (by decide),
   ((decision_request_lookup (P := Nat) (V := Nat)).2 0 3 4 c4PartCtx (by decide)).2.1.mpr
      (by decide)⟩

/-- C1 (amended): provided the coordinator's participant list is non-empty, a
delivered `DecisionRequest` is answered by the coordinator only if the sender
is one of its participants, and dropping (a single `MessageDropped`, no
`SendMessage`) is the sole output whenever it is not; the participant engine
answers only if the sender is in its participant-process list or equals the
coordinator, and otherwise the sole output is a single `MessageDropped`. -/
theorem decision_request_sender_validation {P V : Type} [DecidableEq P] :
    (∀ (now : Nat) (p : P) (e : Epoch) (ctx : CoordCtx P),
      ctx.role_context.participants ≠ [] →
      p ∉ ctx.role_context.participants.map Participant.process →
      coordinatorEvent (V := V) now (CoordinatorEvent.Deliver p (.DecisionRequest e)) ctx
        = Except.ok [CoordinatorAction.Notify
            (.MessageDropped "sender process is not a participant")])
    ∧ (∀ (now : Nat) (p : P) (e : Epoch) (ctx : CoordCtx P)
        (l : List (CoordinatorAction P V)),
      ctx.role_context.participants ≠ [] →
      coordinatorEvent (V := V) now (CoordinatorEvent.Deliver p (.DecisionRequest e)) ctx
        = Except.ok l →
      (∃ q m, CoordinatorAction.SendMessage q m ∈ l) →
      p ∈ ctx.role_context.participants.map Participant.process)
    ∧ (∀ (now : Nat) (p : P) (e : Epoch) (pctx : PartCtx P),
      p ∉ pctx.role_context.participant_processes →
      p ≠ pctx.coordinator →
      participantEvent (V := V) now (ParticipantEvent.Deliver p (.DecisionRequest e)) pctx
        = Except.ok [ParticipantAction.Notify
            (.MessageDropped "sender process is not a coordinator or participant")])
    ∧ (∀ (now : Nat) (p : P) (e : Epoch) (pctx : PartCtx P)
        (l : List (ParticipantAction P V)),
      participantEvent (V := V) now (ParticipantEvent.Deliver p (.DecisionRequest e)) pctx
        = Except.ok l →
      (∃ q m, ParticipantAction.SendMessage q m ∈ l) →
      p ∈ pctx.role_context.participant_processes ∨ p = pctx.coordinator) := by
  refine ⟨?_, ?_, ?_, ?_⟩
  · intro now p e ctx hne hmem
    have hval : (ctx.role_context.participants.any (fun x => x.process != p)) = true := by
      cases hps : ctx.role_context.participants with
      | nil => exact absurd hps hne
      | cons a t =>
        have ha : a.process ≠ p := by
          intro h
          exact hmem (by rw [hps]; exact List.mem_map.mpr ⟨a, List.mem_cons_self a t, h⟩)
        simp [hps, ha]
    simp [coordinatorEvent, hval]
  · intro now p e ctx l hne hok hsend
    by_cases hval : (ctx.role_context.participants.any (fun x => x.process != p)) = true
    · rcases hsend with ⟨q, m, hm⟩
      simp [coordinatorEvent, hval] at hok
      rw [← hok] at hm
      simp at hm
    · have hall : ∀ x ∈ ctx.role_context.participants, x.process = p := by
        simpa using hval
      cases hps : ctx.role_context.participants with
      | nil => exact absurd hps hne
      | cons a t =>
        have := hall a (by rw [hps]; exact List.mem_cons_self a t)
        exact List.mem_map.mpr ⟨a, List.mem_cons_self a t, this⟩
  · intro now p e pctx hmem _hc
    have hc : pctx.role_context.participant_processes.contains p = false := by
      simpa using hmem
    simp [participantEvent, hc]
    intro h
    exact absurd h hmem
  · intro now p e pctx l hok hsend
    by_cases hval : (pctx.role_context.participant_processes.contains p
        && !(pctx.coordinator == p)) = true
    · left
      have h1 := (Bool.and_eq_true _ _ ▸ hval).1
      simpa using h1
    · rcases hsend with ⟨q, m, hm⟩
      have hval' : (pctx.role_context.participant_processes.contains p
          && !(pctx.coordinator == p)) = false := by simpa using hval
      have hred : participantEvent (V := V) now
          (ParticipantEvent.Deliver p (.DecisionRequest e)) pctx
          = Except.ok [ParticipantAction.Notify
              (.MessageDropped "sender process is not a coordinator or participant")] := by
        simp [participantEvent, hval']
        intro h1 h2
        have hcontains : pctx.role_context.participant_processes.contains p = true := by
          simpa using h1
        have hco : (pctx.coordinator == p) = false := by simpa using h2
        rw [hcontains, hco] at hval'
        simp at hval'
      rw [hred] at hok
      have hl : l = [ParticipantAction.Notify
          (.MessageDropped "sender process is not a coordinator or participant")] :=
        (Except.ok.inj hok).symm
      rw [hl] at hm
      simp at hm

/-- C1 counterexample: with an empty participant list the buggy
`any(p != process)` validation passes for any sender, and a `DecisionRequest(3)`
from the stranger process `42` is answered with `Commit(3)` instead of being
dropped. -/
theorem decision_request_sender_validation_counterexample :
    coordinatorEvent (V := Nat) 0 (CoordinatorEvent.Deliver 42 (.DecisionRequest 3)) c1EmptyCtx
      = Except.ok [CoordinatorAction.SendMessage 42 (.Commit 3)]
    ∧ (42 : Nat) ∉ c1EmptyCtx.role_context.participants.map Participant.process :=
  ⟨by decide, by decide⟩

/-- C1 witness: concrete senders on both sides of the validation. -/
theorem decision_request_sender_validation_witness :
    coordinatorEvent (V := Nat) 0 (CoordinatorEvent.Deliver 9 (.DecisionRequest 3)) c1CoordCtx
      = Except.ok [CoordinatorAction.Notify
          (.MessageDropped "sender process is not a participant")]
    ∧ (7 : Nat) ∈ c1CoordCtx.role_context.participants.map Participant.process
    ∧ participantEvent (V := Nat) 0 (ParticipantEvent.Deliver 5 (.DecisionRequest 3)) c1PartCtx
      = Except.ok [ParticipantAction.Notify
          (.MessageDropped "sender process is not a coordinator or participant")]
    ∧ ((3 : Nat) ∈ c1PartCtx.role_context.participant_processes ∨ (3 : Nat) = c1PartCtx.coordinator) :=
  ⟨(decision_request_sender_validation (P := Nat) (V := Nat)).1 0 9 3 c1CoordCtx
      (by decide) (by decide),
   (decision_request_sender_validation (P := Nat) (V := Nat)).2.1 0 7 3 c1CoordCtx
      [CoordinatorAction.SendMessage 7 (.Commit 3)] (by decide) (by decide)
      ⟨7, .Commit 3, by decide⟩,
   (decision_request_sender_validation (P := Nat) (V := Nat)).2.2.1 0 5 3 c1PartCtx
      (by decide) (by decide),
   (decision_request_sender_validation (P := Nat) (V := Nat)).2.2.2 0 3 3 c1PartCtx
      [ParticipantAction.SendMessage 3 (.Commit 3)] (by decide)
      ⟨3, .Commit 3, by decide⟩⟩

/-- C5 (amended): in `WaitingForStart`, `Start(v)` emits exactly one
`SendMessage(p, VoteRequest(epoch, v))` per participant followed by the
`Update` action with state `Voting { vote_timeout_start = now }` and
`alarm = now + VOTE_TIMEOUT` — the sends precede the `Update`. -/
theorem start_actions {P V : Type} [DecidableEq P] (now : Nat) (v : V) (ctx : CoordCtx P)
    (_h : ctx.role_context.state = CoordinatorState.WaitingForStart) :
    coordinatorEvent now (CoordinatorEvent.Start v) ctx
      = Except.ok (ctx.role_context.participants.map
          (fun p => CoordinatorAction.SendMessage p.process
            (TwoPhaseCommitMessage.VoteRequest ctx.epoch v))
        ++ [CoordinatorAction.Update (CoordCtx.set_state ctx (.Voting now))
              (some (now + VOTE_TIMEOUT_SECONDS))]) := by
  simp [coordinatorEvent]

/-- C5 counterexample: at a two-participant context the `Start` action list
begins with the `SendMessage`s and the `Update` comes last, so no `Update`
precedes the per-participant `SendMessage`s. -/
theorem start_actions_counterexample :
    coordinatorEvent 7 (CoordinatorEvent.Start 42) c5Ctx
      = Except.ok [CoordinatorAction.SendMessage 1 (.VoteRequest 0 42),
          CoordinatorAction.SendMessage 2 (.VoteRequest 0 42),
          CoordinatorAction.Update (CoordCtx.set_state c5Ctx (.Voting 7)) (some 37)]
    ∧ updateBeforeSends false
        [CoordinatorAction.SendMessage (P := Nat) 1 (TwoPhaseCommitMessage.VoteRequest 0 42),
          CoordinatorAction.SendMessage 2 (.VoteRequest 0 42),
          CoordinatorAction.Update (CoordCtx.set_state c5Ctx (.Voting 7)) (some 37)] = false :=
  ⟨by decide, by decide⟩

/-- C5 witness: the amended order at the concrete two-participant context. -/
theorem start_actions_witness :
    coordinatorEvent 7 (CoordinatorEvent.Start 42) c5Ctx
      = Except.ok (c5Ctx.role_context.participants.map
          (fun p => CoordinatorAction.SendMessage p.process
            (TwoPhaseCommitMessage.VoteRequest c5Ctx.epoch 42))
        ++ [CoordinatorAction.Update (CoordCtx.set_state c5Ctx (.Voting 7)) (some 37)]) :=
  start_actions 7 42 c5Ctx (by decide)

/-- The code's yes-voter filter `p.vote.unwrap_or(false)` selects exactly the
participants whose recorded vote is `Some(true)`. -/
theorem filter_yes_voters {P : Type} [DecidableEq P] (l : List (Participant P)) :
    l.filter (fun p => p.vote.getD false) = l.filter (fun p => p.vote == some true) := by
  apply List.filter_congr
  intro x _
  cases hv : x.vote with
  | none => rfl
  | some b => cases b <;> rfl

/-- Explicit shape of `push_abort_actions`. -/
theorem push_abort_actions_eq {P V : Type} [DecidableEq P] (now : Nat) (ctx : CoordCtx P) :
    push_abort_actions (V := V) now ctx
      = [CoordinatorAction.Update (CoordCtx.set_state ctx .Abort) none]
        ++ (ctx.role_context.participants.filter (fun q => q.vote == some true)).map
            (fun q => CoordinatorAction.SendMessage q.process (.Abort ctx.epoch))
        ++ [CoordinatorAction.Notify .Abort,
            CoordinatorAction.Update (CoordCtx.set_state ctx (.WaitingForDecisionAck now))
              (some (now + ACK_TIMEOUT_SECONDS))] := by
  simp [push_abort_actions, push_wait_for_decision_ack, CoordCtx.set_state, filter_yes_voters]

/-- C6 (amended): whenever the coordinator decides abort, it emits (a) `Update`
with state `Abort`, alarm `None`; (b) `SendMessage(p, Abort(epoch))` for exactly
the participants whose recorded vote is `Some(true)`; (c) `Notify(Abort)`;
(d) `Update` with state `WaitingForDecisionAck { now }`, alarm
`now + ACK_TIMEOUT`.  For the vote-timeout and coordinator-`Vote(false)`
triggers this is the entire returned list; for the trigger by a `VoteResponse`
completing the vote set with a `false` vote, the list additionally begins with
the `Update` that records the vote. -/
theorem abort_sequence {P V : Type} [DecidableEq P] :
    (∀ (now : Nat) (ctx : CoordCtx P),
      ctx.role_context.state = CoordinatorState.WaitingForVote →
      coordinatorEvent (V := V) now (CoordinatorEvent.Vote false) ctx
        = Except.ok ([CoordinatorAction.Update (CoordCtx.set_state ctx .Abort) none]
            ++ (ctx.role_context.participants.filter (fun q => q.vote == some true)).map
                (fun q => CoordinatorAction.SendMessage q.process (.Abort ctx.epoch))
            ++ [CoordinatorAction.Notify .Abort,
                CoordinatorAction.Update (CoordCtx.set_state ctx (.WaitingForDecisionAck now))
                  (some (now + ACK_TIMEOUT_SECONDS))]))
    ∧ (∀ (now t : Nat) (ctx : CoordCtx P),
      ctx.role_context.state = CoordinatorState.Voting t →
      now > t + VOTE_TIMEOUT_SECONDS →
      coordinatorEvent (V := V) now CoordinatorEvent.Alarm ctx
        = Except.ok ([CoordinatorAction.Update (CoordCtx.set_state ctx .Abort) none]
            ++ (ctx.role_context.participants.filter (fun q => q.vote == some true)).map
                (fun q => CoordinatorAction.SendMessage q.process (.Abort ctx.epoch))
            ++ [CoordinatorAction.Notify .Abort,
                CoordinatorAction.Update (CoordCtx.set_state ctx (.WaitingForDecisionAck now))
                  (some (now + ACK_TIMEOUT_SECONDS))]))
    ∧ (∀ (now : Nat) (p : P) (v : Bool) (ctx : CoordCtx P) (q : Participant P) (t : Nat),
      ctx.role_context.participants.find? (fun x => x.process == p) = some q →
      q.vote = none →
      ctx.role_context.state = CoordinatorState.Voting t →
      ((record_vote ctx.role_context.participants p v).all (fun x => x.vote.isSome)) = true →
      ((record_vote ctx.role_context.participants p v).any (fun x => x.vote == some false))
        = true →
      coordinatorEvent (V := V) now (CoordinatorEvent.Deliver p (.VoteResponse ctx.epoch v)) ctx
        = Except.ok
          (CoordinatorAction.Update
              (CoordCtx.set_participants ctx (record_vote ctx.role_context.participants p v))
              none
            :: ([CoordinatorAction.Update
                  (CoordCtx.set_state
                    (CoordCtx.set_participants ctx
                      (record_vote ctx.role_context.participants p v)) .Abort) none]
              ++ ((record_vote ctx.role_context.participants p v).filter
                    (fun x => x.vote == some true)).map
                  (fun x => CoordinatorAction.SendMessage x.process (.Abort ctx.epoch))
              ++ [CoordinatorAction.Notify .Abort,
                  CoordinatorAction.Update
                    (CoordCtx.set_state
                      (CoordCtx.set_participants ctx
                        (record_vote ctx.role_context.participants p v))
                      (.WaitingForDecisionAck now))
                    (some (now + ACK_TIMEOUT_SECONDS))]))) := by
  refine ⟨?_, ?_, ?_⟩
  · intro now ctx h
    simp [coordinatorEvent, h, push_abort_actions_eq]
  · intro now t ctx h htime
    simp [coordinatorEvent, h, htime, push_abort_actions_eq]
  · intro now p v ctx q t hq hv hst hall hany
    simp [coordinatorEvent, hq, hst, hv, CoordinatorState.isVoting, hall, hany,
      push_abort_actions_eq, CoordCtx.set_participants, CoordCtx.set_state]

/-- C6 counterexample: the spec's scenario `S2` input (participant `1` voted
yes, `VoteResponse(0, false)` from `2` completes the vote set) returns the
vote-recording `Update` in front of the abort sequence, so the list is not
exactly the four-step sequence the claim states. -/
theorem abort_sequence_counterexample :
    coordinatorEvent (V := Nat) 3 (CoordinatorEvent.Deliver 2 (.VoteResponse 0 false)) c6RespCtx
      = Except.ok [CoordinatorAction.Update
            (CoordCtx.set_participants c6RespCtx [⟨1, some true, false⟩, ⟨2, some false, false⟩])
            none,
          CoordinatorAction.Update
            (CoordCtx.set_state (CoordCtx.set_participants c6RespCtx
              [⟨1, some true, false⟩, ⟨2, some false, false⟩]) .Abort) none,
          CoordinatorAction.SendMessage 1 (.Abort 0),
          CoordinatorAction.Notify .Abort,
          CoordinatorAction.Update
            (CoordCtx.set_state (CoordCtx.set_participants c6RespCtx
              [⟨1, some true, false⟩, ⟨2, some false, false⟩]) (.WaitingForDecisionAck 3))
            (some 8)]
    ∧ ¬ ∃ (c1 c2 : CoordCtx Nat),
        coordinatorEvent (V := Nat) 3 (CoordinatorEvent.Deliver 2 (.VoteResponse 0 false)) c6RespCtx
          = Except.ok [CoordinatorAction.Update c1 none,
              CoordinatorAction.SendMessage 1 (.Abort 0),
              CoordinatorAction.Notify .Abort,
              CoordinatorAction.Update c2 (some 8)] := by
  constructor
  · decide
  · rintro ⟨c1, c2, h⟩
    rw [show coordinatorEvent (V := Nat) 3
        (CoordinatorEvent.Deliver 2 (.VoteResponse 0 false)) c6RespCtx
        = Except.ok [CoordinatorAction.Update
            (CoordCtx.set_participants c6RespCtx [⟨1, some true, false⟩, ⟨2, some false, false⟩])
            none,
          CoordinatorAction.Update
            (CoordCtx.set_state (CoordCtx.set_participants c6RespCtx
              [⟨1, some true, false⟩, ⟨2, some false, false⟩]) .Abort) none,
          CoordinatorAction.SendMessage 1 (.Abort 0),
          CoordinatorAction.Notify .Abort,
          CoordinatorAction.Update
            (CoordCtx.set_state (CoordCtx.set_participants c6RespCtx
              [⟨1, some true, false⟩, ⟨2, some false, false⟩]) (.WaitingForDecisionAck 3))
            (some 8)] from by decide] at h
    simp at h

/-- C6 witness: the three abort triggers at concrete contexts. -/
theorem abort_sequence_witness :
    coordinatorEvent (V := Nat) 3 (CoordinatorEvent.Vote false) c6VoteCtx
      = Except.ok ([CoordinatorAction.Update (CoordCtx.set_state c6VoteCtx .Abort) none]
          ++ (c6VoteCtx.role_context.participants.filter (fun q => q.vote == some true)).map
              (fun q => CoordinatorAction.SendMessage q.process (.Abort c6VoteCtx.epoch))
          ++ [CoordinatorAction.Notify .Abort,
              CoordinatorAction.Update (CoordCtx.set_state c6VoteCtx (.WaitingForDecisionAck 3))
                (some 8)])
    ∧ coordinatorEvent (V := Nat) 31 CoordinatorEvent.Alarm c6AlarmCtx
      = Except.ok ([CoordinatorAction.Update (CoordCtx.set_state c6AlarmCtx .Abort) none]
          ++ (c6AlarmCtx.role_context.participants.filter (fun q => q.vote == some true)).map
              (fun q => CoordinatorAction.SendMessage q.process (.Abort c6AlarmCtx.epoch))
          ++ [CoordinatorAction.Notify .Abort,
              CoordinatorAction.Update (CoordCtx.set_state c6AlarmCtx (.WaitingForDecisionAck 31))
                (some 36)])
    ∧ coordinatorEvent (V := Nat) 3 (CoordinatorEvent.Deliver 2 (.VoteResponse 0 false)) c6RespCtx
      = Except.ok
        (CoordinatorAction.Update
            (CoordCtx.set_participants c6RespCtx
              (record_vote c6RespCtx.role_context.participants 2 false)) none
          :: ([CoordinatorAction.Update
                (CoordCtx.set_state
                  (CoordCtx.set_participants c6RespCtx
                    (record_vote c6RespCtx.role_context.participants 2 false)) .Abort) none]
            ++ ((record_vote c6RespCtx.role_context.participants 2 false).filter
                  (fun x => x.vote == some true)).map
                (fun x => CoordinatorAction.SendMessage x.process (.Abort c6RespCtx.epoch))
            ++ [CoordinatorAction.Notify .Abort,
                CoordinatorAction.Update
                  (CoordCtx.set_state
                    (CoordCtx.set_participants c6RespCtx
                      (record_vote c6RespCtx.role_context.participants 2 false))
                    (.WaitingForDecisionAck 3))
                  (some 8)])) :=
  ⟨(abort_sequence (P := Nat) (V := Nat)).1 3 c6VoteCtx (by decide),
   (abort_sequence (P := Nat) (V := Nat)).2.1 31 0 c6AlarmCtx (by decide) (by decide),
   (abort_sequence (P := Nat) (V := Nat)).2.2 3 2 false c6RespCtx ⟨2, none, false⟩ 0
      (by decide) (by decide) (by decide) (by decide) (by decide)⟩

/-- Once both decisions have been recorded by an `Update`, any tail scans
clean. -/
theorem decisionSendsOrdered_true_true {P V : Type} [DecidableEq P] (ps : List P)
    (l : List (CoordinatorAction P V)) :
    decisionSendsOrdered ps true true l = true := by
  induction l with
  | nil => rfl
  | cons a rest ih =>
    cases a with
    | Update c al => simpa [decisionSendsOrdered] using ih
    | SendMessage q m => cases m <;> simp [decisionSendsOrdered, sendGuard, ih]
    | Notify n => simp [decisionSendsOrdered, sendGuard, ih]

/-- `Commit` sends scan clean once the commit flag is set. -/
theorem decisionSendsOrdered_commit_sends {P V : Type} [DecidableEq P] (ps : List P)
    (e : Epoch) (qs : List (Participant P)) (aOk : Bool)
    (rest : List (CoordinatorAction P V)) :
    decisionSendsOrdered ps true aOk
        (qs.map (fun q => CoordinatorAction.SendMessage q.process
          (TwoPhaseCommitMessage.Commit e)) ++ rest)
      = decisionSendsOrdered ps true aOk rest := by
  induction qs with
  | nil => rfl
  | cons q qs ih => simp [decisionSendsOrdered, sendGuard, ih]

/-- `Abort` sends scan clean once the abort flag is set. -/
theorem decisionSendsOrdered_abort_sends {P V : Type} [DecidableEq P] (ps : List P)
    (e : Epoch) (qs : List (Participant P)) (cOk : Bool)
    (rest : List (CoordinatorAction P V)) :
    decisionSendsOrdered ps cOk true
        (qs.map (fun q => CoordinatorAction.SendMessage q.process
          (TwoPhaseCommitMessage.Abort e)) ++ rest)
      = decisionSendsOrdered ps cOk true rest := by
  induction qs with
  | nil => rfl
  | cons q qs ih => simp [decisionSendsOrdered, sendGuard, ih]

/-- `VoteRequest` sends always scan clean. -/
theorem decisionSendsOrdered_vreq_sends {P V : Type} [DecidableEq P] (ps : List P)
    (e : Epoch) (v : V) (qs : List (Participant P)) (cOk aOk : Bool)
    (rest : List (CoordinatorAction P V)) :
    decisionSendsOrdered ps cOk aOk
        (qs.map (fun q => CoordinatorAction.SendMessage q.process
          (TwoPhaseCommitMessage.VoteRequest e v)) ++ rest)
      = decisionSendsOrdered ps cOk aOk rest := by
  induction qs with
  | nil => rfl
  | cons q qs ih => simp [decisionSendsOrdered, sendGuard, ih]

/-- C3 (amended): for every event other than a delivered `DecisionRequest`, in
every action list the coordinator engine returns, any `SendMessage` carrying a
`Commit` (resp. `Abort`) to a participant is preceded by an `Update` whose
context state is the corresponding decided state or a state that follows it. -/
theorem decision_sends_follow_update {P V : Type} [DecidableEq P]
    (now : Nat) (ev : CoordinatorEvent P V) (ctx : CoordCtx P)
    (hne : ∀ (p : P) (e : Epoch), ev ≠ CoordinatorEvent.Deliver p (.DecisionRequest e))
    (l : List (CoordinatorAction P V))
    (hok : coordinatorEvent now ev ctx = Except.ok l) :
    decisionSendsOrdered (ctx.role_context.participants.map Participant.process) false false l
      = true := by
  cases ev with
  | Start v =>
    simp only [coordinatorEvent] at hok
    have hl := Except.ok.inj hok
    subst hl
    rw [decisionSendsOrdered_vreq_sends]
    simp [decisionSendsOrdered]
  | Vote b =>
    simp only [coordinatorEvent] at hok
    split at hok
    · simp at hok
    · split at hok
      · have hl := Except.ok.inj hok
        subst hl
        simp [decisionSendsOrdered, sendGuard, decidedOrAfterCommit, decidedOrAfterAbort,
          CoordCtx.set_state, push_wait_for_decision_ack,
          decisionSendsOrdered_commit_sends]
      · have hl := Except.ok.inj hok
        subst hl
        simp [push_abort_actions_eq, decisionSendsOrdered, sendGuard, decidedOrAfterCommit,
          decidedOrAfterAbort, CoordCtx.set_state, decisionSendsOrdered_abort_sends]
  | Alarm =>
    simp only [coordinatorEvent] at hok
    split at hok
    · -- state `Voting`
      split at hok
      · have hl := Except.ok.inj hok
        subst hl
        simp [push_abort_actions_eq, decisionSendsOrdered, sendGuard, decidedOrAfterCommit,
          decidedOrAfterAbort, CoordCtx.set_state, decisionSendsOrdered_abort_sends]
      · have hl := Except.ok.inj hok
        subst hl
        rfl
    · -- state `WaitingForStart`
      have hl := Except.ok.inj hok
      subst hl
      rfl
    · -- state `WaitingForVote`
      have hl := Except.ok.inj hok
      subst hl
      rfl
    · -- state `WaitingForDecisionAck`
      split at hok
      · have hl := Except.ok.inj hok
        subst hl
        simp [push_advance_epoch_actions, decisionSendsOrdered, sendGuard,
          CoordCtx.set_state, CoordCtx.set_participants]
      · have hl := Except.ok.inj hok
        subst hl
        rfl
    · -- state `Commit`
      have hl := Except.ok.inj hok
      subst hl
      simp [push_advance_epoch_actions, decisionSendsOrdered, sendGuard,
        CoordCtx.set_state, CoordCtx.set_participants]
    · -- state `Abort`
      have hl := Except.ok.inj hok
      subst hl
      simp [push_advance_epoch_actions, decisionSendsOrdered, sendGuard,
        CoordCtx.set_state, CoordCtx.set_participants]
  | Deliver p m =>
    cases m with
    | DecisionRequest e => exact absurd rfl (hne p e)
    | VoteResponse e v =>
      simp only [coordinatorEvent] at hok
      split at hok
      · -- sender not a participant
        have hl := Except.ok.inj hok
        subst hl
        rfl
      · -- participant found
        split at hok
        · -- stale epoch
          have hl := Except.ok.inj hok
          subst hl
          rfl
        · split at hok
          · -- not in the voting window
            have hl := Except.ok.inj hok
            subst hl
            rfl
          · split at hok
            · -- already voted
              have hl := Except.ok.inj hok
              subst hl
              rfl
            · split at hok
              · split at hok
                · -- all voted, at least one no: abort sequence
                  have hl := Except.ok.inj hok
                  subst hl
                  simp [push_abort_actions_eq, decisionSendsOrdered, sendGuard,
                    decidedOrAfterCommit, decidedOrAfterAbort, CoordCtx.set_state,
                    CoordCtx.set_participants, decisionSendsOrdered_abort_sends]
                · -- all voted yes: await the coordinator vote
                  have hl := Except.ok.inj hok
                  subst hl
                  simp [decisionSendsOrdered, sendGuard]
              · -- recorded, vote set incomplete
                have hl := Except.ok.inj hok
                subst hl
                simp [decisionSendsOrdered, sendGuard]
    | DecisionAck e =>
      simp only [coordinatorEvent] at hok
      split at hok
      · have hl := Except.ok.inj hok
        subst hl
        rfl
      · split at hok
        · have hl := Except.ok.inj hok
          subst hl
          rfl
        · split at hok
          · have hl := Except.ok.inj hok
            subst hl
            rfl
          · split at hok
            · have hl := Except.ok.inj hok
              subst hl
              rfl
            · split at hok
              · -- all acked: epoch advance
                have hl := Except.ok.inj hok
                subst hl
                simp [push_advance_epoch_actions, decisionSendsOrdered, sendGuard,
                  CoordCtx.set_state, CoordCtx.set_participants]
              · -- recorded, ack set incomplete
                have hl := Except.ok.inj hok
                subst hl
                simp [decisionSendsOrdered, sendGuard]

/-- C3 counterexample: a `DecisionRequest` reply sends `Commit(3)` to
participant `7` with no `Update` anywhere in the returned list. -/
theorem decision_sends_follow_update_counterexample :
    coordinatorEvent (V := Nat) 0 (CoordinatorEvent.Deliver 7 (.DecisionRequest 3)) c3Ctx
      = Except.ok [CoordinatorAction.SendMessage 7 (.Commit 3)]
    ∧ decisionSendsOrdered (c3Ctx.role_context.participants.map Participant.process) false false
        [CoordinatorAction.SendMessage (V := Nat) 7 (TwoPhaseCommitMessage.Commit 3)] = false :=
  ⟨by decide, by decide⟩

/-- C3 witness: the ordering check passes on a concretely produced action
list. -/
theorem decision_sends_follow_update_witness :
    decisionSendsOrdered (c3Ctx.role_context.participants.map Participant.process) false false
      [CoordinatorAction.SendMessage (V := Nat) 7 (TwoPhaseCommitMessage.VoteRequest 5 42),
        CoordinatorAction.Update (CoordCtx.set_state c3Ctx (.Voting 7)) (some 37)] = true :=
  decision_sends_follow_update 7 (CoordinatorEvent.Start 42) c3Ctx
    (fun _ _ h => CoordinatorEvent.noConfusion h) _ (by decide)

/-- C2: divergence of the two layouts at an epoch advance from prior state
`Abort` (epoch 4, no commit recorded, participant `1` voted yes).  The current
layout advances to epoch 5 leaving `last_commit_epoch` unchanged and resetting
the participant slots; the `algorithm::two_phase_commit` layout sets
`last_commit_epoch = Some(4)` although epoch 4 aborted, and resets nothing. -/
theorem advance_epoch_divergence :
    oldCoordinatorEvent (V := Nat) 99 CoordinatorEvent.Alarm c2OldCtx
      = Except.ok [OldCoordinatorAction.Update c2OldCtxAfter .Unset,
          OldCoordinatorAction.Notify .RequestForStart]
    ∧ c2OldCtx.last_commit_epoch = none
    ∧ c2OldCtxAfter.last_commit_epoch = some 4
    ∧ c2OldCtxAfter.participants = [⟨1, some true⟩]
    ∧ coordinatorEvent (V := Nat) 99 CoordinatorEvent.Alarm c2NewCtx
      = Except.ok [CoordinatorAction.Update c2NewCtxAfter none,
          CoordinatorAction.Notify .RequestForStart]
    ∧ c2NewCtxAfter.last_commit_epoch = c2NewCtx.last_commit_epoch
    ∧ c2NewCtxAfter.epoch = c2NewCtx.epoch + 1
    ∧ c2NewCtxAfter.role_context.participants = [⟨1, none, false⟩]
    ∧ c2NewCtxAfter.role_context.state = CoordinatorState.WaitingForStart :=
  ⟨by decide, by decide, by decide, by decide, by decide, by decide, by decide, by decide,
   by decide⟩

/-- C9: divergence of the two layouts on `VoteResponse` handling in the voting
window (state `Voting`, known participant `1`, current epoch, no prior vote).
The current layout records the vote and emits `Update`s; the
`algorithm::two_phase_commit` layout drops the message because its
`matches!(…, Voting)` guard is inverted, contradicting both its own comment and
its own drop reason. -/
theorem vote_response_state_check_divergence :
    coordinatorEvent (V := Nat) 0 (CoordinatorEvent.Deliver 1 (.VoteResponse 0 true)) c9NewCtx
      = Except.ok [CoordinatorAction.Update
            (CoordCtx.set_participants c9NewCtx [⟨1, some true, false⟩]) none,
          CoordinatorAction.Update
            (CoordCtx.set_state
              (CoordCtx.set_participants c9NewCtx [⟨1, some true, false⟩]) .WaitingForVote) none,
          CoordinatorAction.Notify .RequestForVote]
    ∧ oldCoordinatorEvent (V := Nat) 0 (CoordinatorEvent.Deliver 1 (.VoteResponse 0 true)) c9OldCtx
      = Except.ok [OldCoordinatorAction.Notify
          (.MessageDropped "context state is not Voting")]
    ∧ c9NewCtx.role_context.state.isVoting = true
    ∧ c9OldCtx.state.isVoting = true :=
  ⟨by decide, by decide, by decide, by decide⟩
